import Mathlib

/-!
Shallow embedding of the geometric core of the bench-drawing generators:
`svg_bench_drawer.py` (`Point3D`, `Panel`, `SVGDrawing`, `BenchDrawing`) and
`bench_3d_viewer.py` (`create_box_mesh`, connection lines of
`create_interactive_viewer`).  All definitions are translated from the Python
source; definitions written from the specification text (for refinement
comparisons) are explicitly marked as spec-side in their doc comments.

Python floats are idealised: the scalar type is a linear ordered field,
instantiated at `ℝ` where trigonometry is involved and at `ℚ` for concrete
evaluations.
-/

/-- Point record (`svg_bench_drawer.py`, class `Point3D`): real-valued
coordinates in inches. -/
structure Point3D (α : Type) where
  x : α
  y : α
  z : α
deriving DecidableEq

variable {α : Type} [LinearOrderedField α]

/-- Source `Point3D.translate(dx, dy, dz)` (`svg_bench_drawer.py` lines 39-41):
returns a new translated point. -/
def Point3D.translate (p : Point3D α) (dx dy dz : α) : Point3D α :=
  ⟨p.x + dx, p.y + dy, p.z + dz⟩

/-- Source `Point3D.rotate_y(angle_rad)` (`svg_bench_drawer.py` lines 19-27):
rotate around the Y axis. -/
noncomputable def Point3D.rotate_y (p : Point3D ℝ) (angle_rad : ℝ) : Point3D ℝ :=
  let cos_a := Real.cos angle_rad
  let sin_a := Real.sin angle_rad
  ⟨p.x * cos_a + p.z * sin_a, p.y, -p.x * sin_a + p.z * cos_a⟩

/-- Source `Point3D.rotate_x(angle_rad)` (`svg_bench_drawer.py` lines 29-37):
rotate around the X axis. -/
noncomputable def Point3D.rotate_x (p : Point3D ℝ) (angle_rad : ℝ) : Point3D ℝ :=
  let cos_a := Real.cos angle_rad
  let sin_a := Real.sin angle_rad
  ⟨p.x, p.y * cos_a - p.z * sin_a, p.y * sin_a + p.z * cos_a⟩

/-- Model of Python `math.radians`: degrees to radians. -/
noncomputable def radians (d : ℝ) : ℝ := d * Real.pi / 180

/-- Source `Point3D.to_isometric(scale)` (`svg_bench_drawer.py` lines 43-48):
rotate 45 degrees about Y, then 35.264 degrees about X, then flip Y for SVG
screen coordinates. -/
noncomputable def Point3D.to_isometric (self : Point3D ℝ) (scale : ℝ) : ℝ × ℝ :=
  let p := self.rotate_y (radians 45)
  let p2 := p.rotate_x (radians 35.264)
  (p2.x * scale, -p2.y * scale)

/-- Spec-side (§4.1): the standard right-handed rotation matrix about the
Y axis, applied to a point.  Written from the spec text, to be compared
with the source function `Point3D.rotate_y`. -/
noncomputable def rotYmatrix (θ : ℝ) (p : Point3D ℝ) : Point3D ℝ :=
  ⟨Real.cos θ * p.x + Real.sin θ * p.z,
   p.y,
   -Real.sin θ * p.x + Real.cos θ * p.z⟩

/-- Spec-side (§4.1): the standard right-handed rotation matrix about the
X axis, applied to a point. -/
noncomputable def rotXmatrix (θ : ℝ) (p : Point3D ℝ) : Point3D ℝ :=
  ⟨p.x,
   Real.cos θ * p.y - Real.sin θ * p.z,
   Real.sin θ * p.y + Real.cos θ * p.z⟩

/-- Spec-side (§4.1): `toIsometric(scale)` as the spec words it — apply
`rotateY(45°)` then `rotateX(35.264°)` as standard right-handed rotations,
then map the rotated `(x, y)` to `(x*scale, -y*scale)`. -/
noncomputable def toIsometricSpec (p : Point3D ℝ) (scale : ℝ) : ℝ × ℝ :=
  let q := rotXmatrix (radians 35.264) (rotYmatrix (radians 45) p)
  (q.x * scale, -q.y * scale)

/-- Sheet metal panel (`svg_bench_drawer.py`, class `Panel`). -/
structure Panel (α : Type) where
  name : String
  width : α
  depth : α
  thickness : α
  position : Point3D α
  holes : List (Point3D α)
  material : String
deriving DecidableEq

/-- Source `Panel.get_corners()` (`svg_bench_drawer.py` lines 62-75): the 8 corner
points of the panel. -/
def Panel.get_corners (self : Panel α) : List (Point3D α) :=
  let x := self.position.x
  let y := self.position.y
  let z := self.position.z
  let w := self.width
  let d := self.depth
  let t := self.thickness
  [⟨x, y, z⟩,
   ⟨x + w, y, z⟩,
   ⟨x + w, y + d, z⟩,
   ⟨x, y + d, z⟩,
   ⟨x, y, z + t⟩,
   ⟨x + w, y, z + t⟩,
   ⟨x + w, y + d, z + t⟩,
   ⟨x, y + d, z + t⟩]

/-- Box mesh record (`bench_3d_viewer.py`, return value of `create_box_mesh`):
8 vertices, three parallel triangle index arrays `i`, `j`, `k`, and a color.
The dict entries `x`, `y`, `z` are the coordinate projections of
`vertices` and are not separately modelled. -/
structure BoxMesh (α : Type) where
  vertices : List (Point3D α)
  i : List ℕ
  j : List ℕ
  k : List ℕ
  color : String
deriving DecidableEq

/-- Source `create_box_mesh(x, y, z, width, depth, thickness, color)`
(`bench_3d_viewer.py` lines 22-55): 8 corners plus the triangle index
arrays exactly as written in the source (lines 39-44). -/
def create_box_mesh (x y z width depth thickness : α) (color : String) :
    BoxMesh α :=
  { vertices :=
      [⟨x, y, z⟩,
       ⟨x + width, y, z⟩,
       ⟨x + width, y + depth, z⟩,
       ⟨x, y + depth, z⟩,
       ⟨x, y, z + thickness⟩,
       ⟨x + width, y, z + thickness⟩,
       ⟨x + width, y + depth, z + thickness⟩,
       ⟨x, y + depth, z + thickness⟩],
    i := [0, 0, 1, 1, 2, 2, 3, 3, 4, 4, 5, 5,
          0, 0, 1, 1, 4, 4, 5, 5, 2, 2, 3, 3],
    j := [1, 1, 2, 2, 3, 3, 0, 0, 5, 5, 6, 6,
          4, 4, 5, 5, 7, 7, 6, 6, 6, 6, 7, 7],
    k := [4, 2, 5, 6, 6, 7, 7, 4, 6, 7, 7, 4,
          1, 3, 0, 2, 3, 0, 1, 4, 3, 7, 0, 4],
    color := color }

/-- SVG drawing element.  The source accumulates formatted strings; the
drawing parameters of each element are modelled structurally (string assembly is
formatting glue, out of scope per spec §1).  Only the constructors used by
`SVGDrawing.dimension_line` are modelled. -/
inductive SVGElement where
  /-- Source `SVGDrawing.line` element (`svg_bench_drawer.py` lines 95-107). -/
  | lineEl (x1 y1 x2 y2 : ℝ) (stroke : String) (stroke_width : ℝ)
      (stroke_dasharray : Option String) (opacity : ℝ)
      (marker_start marker_end : Option String)
  /-- the rotated dimension label text (`svg_bench_drawer.py` lines 192-196). -/
  | dimLabelEl (x y : ℝ) (angle cx cy : ℝ) (label : String)

/-- SVG drawing builder state (`svg_bench_drawer.py`, class `SVGDrawing`). -/
structure SVGDrawing where
  width : ℕ
  height : ℕ
  elements : List SVGElement
  defs : List String

/-- Source `SVGDrawing.add_element` (`svg_bench_drawer.py` lines 91-93). -/
def SVGDrawing.add_element (self : SVGDrawing) (e : SVGElement) : SVGDrawing :=
  { self with elements := self.elements ++ [e] }

/-- Source `SVGDrawing.line` (`svg_bench_drawer.py` lines 95-107). -/
def SVGDrawing.line (self : SVGDrawing) (x1 y1 x2 y2 : ℝ)
    (stroke : String) (stroke_width : ℝ) (stroke_dasharray : Option String)
    (opacity : ℝ) (marker_start marker_end : Option String) : SVGDrawing :=
  self.add_element
    (SVGElement.lineEl x1 y1 x2 y2 stroke stroke_width stroke_dasharray
      opacity marker_start marker_end)

/-- Model of Python `math.atan2(y, x)`: the argument of the complex
number `x + y*i` (in `(-π, π]`). -/
noncomputable def atan2 (y x : ℝ) : ℝ := Complex.arg ⟨x, y⟩

/-- Model of Python `math.degrees`: radians to degrees. -/
noncomputable def degreesOf (r : ℝ) : ℝ := r * 180 / Real.pi

/-- Source `SVGDrawing.dimension_line` (`svg_bench_drawer.py` lines 154-196):
dimension line with witness lines, arrows and a rotated label; returns the
drawing unchanged when the two endpoints coincide (`length == 0`). -/
noncomputable def SVGDrawing.dimension_line (self : SVGDrawing)
    (x1 y1 x2 y2 : ℝ) (label : String) (offset : ℝ) : SVGDrawing :=
  let dx := x2 - x1
  let dy := y2 - y1
  let length := Real.sqrt (dx * dx + dy * dy)
  if length = 0 then self
  else
    let px := -dy / length
    let py := dx / length
    let ox1 := x1 + px * offset
    let oy1 := y1 + py * offset
    let ox2 := x2 + px * offset
    let oy2 := y2 + py * offset
    let d1 := self.line x1 y1 ox1 oy1 "black" 0.3 none 1 none none
    let d2 := d1.line x2 y2 ox2 oy2 "black" 0.3 none 1 none none
    let d3 := d2.line ox1 oy1 ox2 oy2 "black" 0.5 none 1
      (some "url(#arrowhead-start)") (some "url(#arrowhead)")
    let mid_x := (ox1 + ox2) / 2
    let mid_y := (oy1 + oy2) / 2
    let angle0 := degreesOf (atan2 dy dx)
    let angle := if angle0 > 90 ∨ angle0 < -90 then angle0 + 180 else angle0
    d3.add_element (SVGElement.dimLabelEl mid_x (mid_y - 3) angle mid_x mid_y label)

/-- The bounding-box corner pool of `BenchDrawing.draw_orthographic_views`
(`svg_bench_drawer.py` lines 258-260): all corners of all panels. -/
def allCorners (panels : List (Panel α)) : List (Point3D α) :=
  panels.flatMap Panel.get_corners

/-- Source `min_x` of `draw_orthographic_views` (`svg_bench_drawer.py` line 262):
minimum x over all corners.  Python `min` faults on an empty pool; this
is modelled by `Option`. -/
def bbox_min_x (panels : List (Panel α)) : Option α :=
  ((allCorners panels).map Point3D.x).min?

/-- Source `max_x` of `draw_orthographic_views` (`svg_bench_drawer.py` line 263). -/
def bbox_max_x (panels : List (Panel α)) : Option α :=
  ((allCorners panels).map Point3D.x).max?

/-- Source `min_y` of `draw_orthographic_views` (`svg_bench_drawer.py` line 264). -/
def bbox_min_y (panels : List (Panel α)) : Option α :=
  ((allCorners panels).map Point3D.y).min?

/-- Source `max_y` of `draw_orthographic_views` (`svg_bench_drawer.py` line 265). -/
def bbox_max_y (panels : List (Panel α)) : Option α :=
  ((allCorners panels).map Point3D.y).max?

/-- Source `min_z` of `draw_orthographic_views` (`svg_bench_drawer.py` line 266). -/
def bbox_min_z (panels : List (Panel α)) : Option α :=
  ((allCorners panels).map Point3D.z).min?

/-- Source `max_z` of `draw_orthographic_views` (`svg_bench_drawer.py` line 267). -/
def bbox_max_z (panels : List (Panel α)) : Option α :=
  ((allCorners panels).map Point3D.z).max?

/-- The explode loop of `BenchDrawing.draw_exploded_view`
(`svg_bench_drawer.py` lines 413-422), with the enumeration index `i` made
explicit; `half` is the loop-invariant `len(panels)//2`.  Each derived panel
is rebuilt with `Panel(name, width, depth, thickness, exploded_pos, holes,
material)` where `exploded_pos = position.translate(0, 0, offset)` and
`offset = explode_distance * (i - half)`. -/
def explode_go (explode_distance : α) (half : ℤ) :
    ℕ → List (Panel α) → List (Panel α)
  | _, [] => []
  | i, panel :: rest =>
    let offset := explode_distance * (((i : ℤ) - half : ℤ) : α)
    Panel.mk panel.name panel.width panel.depth panel.thickness
        (panel.position.translate 0 0 offset) panel.holes panel.material
      :: explode_go explode_distance half (i + 1) rest

/-- The explode transform of `BenchDrawing.draw_exploded_view`
(`svg_bench_drawer.py` lines 413-422): enumerate the panels from 0 with
`half = len(panels)//2` fixed before the loop. -/
def explode_panels (panels : List (Panel α)) (explode_distance : α) :
    List (Panel α) :=
  explode_go explode_distance ((panels.length / 2 : ℕ) : ℤ) 0 panels

/-- The assembly-direction arrow endpoints of
`BenchDrawing.draw_exploded_view` (`svg_bench_drawer.py` lines 455-467):
for each consecutive pair of exploded panels, the 3D points
`p1 = exploded_panels[i].get_corners()[6]` and
`p2 = exploded_panels[i+1].get_corners()[4]` (the source then projects both
with `to_isometric` and draws a dashed line between them). -/
def assembly_arrow_endpoints : List (Panel α) → List (Point3D α × Point3D α)
  | p1 :: p2 :: rest =>
    ((p1.get_corners).get ⟨6, by simp [Panel.get_corners]⟩,
     (p2.get_corners).get ⟨4, by simp [Panel.get_corners]⟩)
      :: assembly_arrow_endpoints (p2 :: rest)
  | _ => []

/-- Source `np.mean(vertices, axis=0)` (`bench_3d_viewer.py` lines 239-240):
componentwise mean of a point list. -/
def meanPoint (pts : List (Point3D α)) : Point3D α :=
  ⟨(pts.map Point3D.x).sum / (pts.length : α),
   (pts.map Point3D.y).sum / (pts.length : α),
   (pts.map Point3D.z).sum / (pts.length : α)⟩

/-- The connection lines of `create_interactive_viewer`
(`bench_3d_viewer.py` lines 236-251): when there are exactly 3 exploded
panels, the explicit pair list `[(0, 1), (0, 2)]` is used and each line
joins `np.mean(vertices)` of the two panels; otherwise no lines are
emitted. -/
def viewer_connection_lines (exploded : List (BoxMesh α)) :
    List (Point3D α × Point3D α) :=
  match exploded with
  | [a, b, c] =>
    [(meanPoint a.vertices, meanPoint b.vertices),
     (meanPoint a.vertices, meanPoint c.vertices)]
  | _ => []

/-- Spec-side (§3): the fixed corner-indexing convention — corners 0-3 are
the bottom face in the order origin, +X, +X+Y, +Y, and corners 4-7 repeat
that XY order at `z + thickness`.  Written from the spec text, to be
compared with the source function `Panel.get_corners`. -/
def cornerConvention (pnl : Panel α) : List (Point3D α) :=
  [pnl.position,
   pnl.position.translate pnl.width 0 0,
   pnl.position.translate pnl.width pnl.depth 0,
   pnl.position.translate 0 pnl.depth 0,
   pnl.position.translate 0 0 pnl.thickness,
   pnl.position.translate pnl.width 0 pnl.thickness,
   pnl.position.translate pnl.width pnl.depth pnl.thickness,
   pnl.position.translate 0 pnl.depth pnl.thickness]

/-- Concrete sample panel spanning `(0,0,0)`-`(2,2,2)`. -/
def samplePanelA : Panel ℚ := ⟨"A", 2, 2, 2, ⟨0, 0, 0⟩, [], "304 Stainless"⟩

/-- Concrete sample panel spanning `(10,0,0)`-`(12,2,2)`. -/
def samplePanelB : Panel ℚ := ⟨"B", 2, 2, 2, ⟨10, 0, 0⟩, [], "304 Stainless"⟩

/-- Concrete bounding-box test panel spanning `(0,0,0)`-`(10,5,2)`
(spec §8). -/
def bboxPanelA : Panel ℚ := ⟨"A", 10, 5, 2, ⟨0, 0, 0⟩, [], "304 Stainless"⟩

/-- Concrete bounding-box test panel spanning `(20,0,0)`-`(30,5,2)`
(spec §8). -/
def bboxPanelB : Panel ℚ := ⟨"B", 10, 5, 2, ⟨20, 0, 0⟩, [], "304 Stainless"⟩

/-! ## Helper lemmas -/

theorem Panel.length_get_corners (p : Panel α) : p.get_corners.length = 8 :=
  rfl

theorem explode_go_length (D : α) (half : ℤ) (i : ℕ) (ps : List (Panel α)) :
    (explode_go D half i ps).length = ps.length := by
  induction ps generalizing i with
  | nil => rfl
  | cons p rest ih => simp [explode_go, ih]

theorem explode_panels_length (ps : List (Panel α)) (D : α) :
    (explode_panels ps D).length = ps.length :=
  explode_go_length ..

theorem explode_go_get (D : α) (half : ℤ) (j : ℕ) (ps : List (Panel α))
    (n : ℕ) (h1 : n < ps.length) (h2 : n < (explode_go D half j ps).length) :
    (explode_go D half j ps).get ⟨n, h2⟩ =
      (fun p : Panel α =>
        Panel.mk p.name p.width p.depth p.thickness
          (p.position.translate 0 0 (D * ((((j + n : ℕ) : ℤ) - half : ℤ) : α)))
          p.holes p.material)
        (ps.get ⟨n, h1⟩) := by
  induction ps generalizing j n with
  | nil => exact absurd h1 (by simp)
  | cons p rest ih =>
    cases n with
    | zero => simp [explode_go]
    | succ m =>
      have hm : m < rest.length := Nat.lt_of_succ_lt_succ h1
      have hm2 : m < (explode_go D half (j + 1) rest).length := by
        rw [explode_go_length]; exact hm
      have := ih (j + 1) m hm hm2
      simp only [explode_go, List.get_cons_succ]
      rw [this]
      have harith : ((j + 1 + m : ℕ) : ℤ) = ((j + (m + 1) : ℕ) : ℤ) := by
        push_cast; ring
      rw [harith]

theorem explode_go_inv (D : α) (half : ℤ) (i : ℕ) (ps : List (Panel α)) :
    explode_go (-D) half i (explode_go D half i ps) = ps := by
  induction ps generalizing i with
  | nil => rfl
  | cons p rest ih =>
    obtain ⟨nm, w, d, t, ⟨px, py, pz⟩, hs, mt⟩ := p
    simp [explode_go, Point3D.translate, ih (i + 1)]

theorem explode_go_fields (D : α) (half : ℤ) (i : ℕ) (ps : List (Panel α)) :
    (explode_go D half i ps).map
        (fun q => (q.name, q.width, q.depth, q.thickness, q.holes, q.material)) =
      ps.map (fun q => (q.name, q.width, q.depth, q.thickness, q.holes, q.material)) ∧
    (explode_go D half i ps).map (fun q => (q.position.x, q.position.y)) =
      ps.map (fun q => (q.position.x, q.position.y)) := by
  induction ps generalizing i with
  | nil => exact ⟨rfl, rfl⟩
  | cons p rest ih =>
    obtain ⟨ih1, ih2⟩ := ih (i + 1)
    constructor
    · simp [explode_go, ih1]
    · simp [explode_go, ih2, Point3D.translate]

/-! ## Claim theorems -/

/-- C10: for every point `p` and angle `theta`, `rotate_y` leaves the `y`
coordinate unchanged and `rotate_x` leaves the `x` coordinate unchanged:
each rotation only changes the two coordinates orthogonal to its axis. -/
theorem rotate_fixes_axis_coordinate (p : Point3D ℝ) (angle_rad : ℝ) :
    (p.rotate_y angle_rad).y = p.y ∧ (p.rotate_x angle_rad).x = p.x :=
  ⟨rfl, rfl⟩

/-- C3: for every point `p` and scale `s`, `to_isometric p s` equals the
result of rotating `p` by 45 degrees about the Y axis with the standard
right-handed rotation matrix, then by 35.264 degrees about the X axis,
then mapping the rotated `(x, y)` to `(x*s, -y*s)`; the function is a total
pure function of its inputs. -/
theorem to_isometric_matches_spec (p : Point3D ℝ) (s : ℝ) :
    p.to_isometric s = toIsometricSpec p s := by
  simp only [Point3D.to_isometric, Point3D.rotate_y, Point3D.rotate_x,
    toIsometricSpec, rotYmatrix, rotXmatrix, Prod.mk.injEq]
  constructor <;> ring

/-- C4: `get_corners` returns exactly the 8 corners of the fixed indexing
convention (0-3 the bottom face in the order origin, +X, +X+Y, +Y; 4-7 the
same XY order at `z + thickness`), and for a panel at position `(0,0,0)`
corner 6 is exactly `(w, d, t)`. -/
theorem get_corners_convention (pnl : Panel α) (nm mt : String) (w d t : α)
    (hs : List (Point3D α)) :
    pnl.get_corners = cornerConvention pnl ∧
    (Panel.mk nm w d t ⟨0, 0, 0⟩ hs mt).get_corners[6]? = some ⟨w, d, t⟩ := by
  constructor
  · simp [Panel.get_corners, cornerConvention, Point3D.translate]
  · simp [Panel.get_corners]

/-- C5: the 8 vertices produced by the 3D-viewer box-mesh generator are
equal, index for index, to the 8 corners returned by `Panel.get_corners`
for a panel with the same position and dimensions. -/
theorem create_box_mesh_vertices_eq_get_corners (x y z w d t : α)
    (c nm mt : String) (hs : List (Point3D α)) :
    (create_box_mesh x y z w d t c).vertices =
      (Panel.mk nm w d t ⟨x, y, z⟩ hs mt).get_corners :=
  rfl

/-- C1 (code evaluation): the triangle index table of `create_box_mesh` is
a fixed constant independent of the anchor and the dimensions, but each of
the three parallel index arrays has 24 entries, not 12: the generator emits
24 triangle index triples although its own comment says 12 triangles
(2 per face, 6 faces). -/
theorem create_box_mesh_index_table (x y z w d t : α) (c : String) :
    (create_box_mesh x y z w d t c).i =
      [0, 0, 1, 1, 2, 2, 3, 3, 4, 4, 5, 5,
       0, 0, 1, 1, 4, 4, 5, 5, 2, 2, 3, 3] ∧
    (create_box_mesh x y z w d t c).i.length = 24 ∧
    (create_box_mesh x y z w d t c).j.length = 24 ∧
    (create_box_mesh x y z w d t c).k.length = 24 :=
  ⟨rfl, rfl, rfl, rfl⟩

/-- C8: a dimension-line request between coincident endpoints is detected
by the zero-length guard and skipped before any division by the vector
length: no drawing element is emitted and the drawing state is returned
unchanged. -/
theorem dimension_line_coincident (d : SVGDrawing) (x y offset : ℝ)
    (label : String) :
    d.dimension_line x y x y label offset = d := by
  simp [SVGDrawing.dimension_line]

theorem list_min?_spec {β : Type} [LinearOrder β] {l : List β} {m : β}
    (h : l.min? = some m) : m ∈ l ∧ ∀ b ∈ l, m ≤ b := by
  have anti : Std.Antisymm ((· : β) ≤ ·) := ⟨fun h1 h2 => le_antisymm h1 h2⟩
  exact (@List.min?_eq_some_iff β m _ _ anti (fun a => le_refl a)
    (fun a b => min_choice a b) (fun a b c => le_min_iff) l).1 h

theorem list_max?_spec {β : Type} [LinearOrder β] {l : List β} {M : β}
    (h : l.max? = some M) : M ∈ l ∧ ∀ b ∈ l, b ≤ M := by
  have anti : Std.Antisymm ((· : β) ≤ ·) := ⟨fun h1 h2 => le_antisymm h1 h2⟩
  exact (@List.max?_eq_some_iff β M _ _ anti (fun a => le_refl a)
    (fun a b => max_choice a b) (fun a b c => max_le_iff) l).1 h

theorem meanPoint_create_box_mesh (x y z w d t : α) (c : String) :
    meanPoint (create_box_mesh x y z w d t c).vertices =
      ⟨x + w / 2, y + d / 2, z + t / 2⟩ := by
  simp only [create_box_mesh, meanPoint, List.map_cons, List.map_nil,
    List.sum_cons, List.sum_nil, List.length_cons, List.length_nil,
    Point3D.mk.injEq]
  push_cast
  refine ⟨by ring, by ring, by ring⟩

/-- C6: the explode transform shifts panel `i` by the signed offset
`D * (i - floor(panelCount/2))` along the Z axis, and exploding with
distance `D` followed by exploding the result with distance `-D` restores
the original position of every panel exactly. -/
theorem explode_offset_and_round_trip (panels : List (Panel α)) (D : α) :
    (∀ (i : ℕ) (h1 : i < panels.length)
        (h2 : i < (explode_panels panels D).length),
      ((explode_panels panels D).get ⟨i, h2⟩).position =
        (panels.get ⟨i, h1⟩).position.translate 0 0
          (D * (((i : ℤ) - ((panels.length / 2 : ℕ) : ℤ) : ℤ) : α))) ∧
    explode_panels (explode_panels panels D) (-D) = panels := by
  constructor
  · intro i h1 h2
    have h := explode_go_get D ((panels.length / 2 : ℕ) : ℤ) 0 panels i h1 h2
    show (List.get (explode_go D ((panels.length / 2 : ℕ) : ℤ) 0 panels)
        ⟨i, h2⟩).position = _
    rw [h]
    simp
  · show explode_go (-D) (((explode_panels panels D).length / 2 : ℕ) : ℤ) 0
        (explode_panels panels D) = panels
    rw [explode_panels_length]
    exact explode_go_inv D _ 0 panels

/-- Witness for C6: in the concrete two-panel assembly the first panel
(index 0, `floor(2/2) = 1`) is shifted by `5 * (0 - 1) = -5` along Z. -/
theorem explode_offset_and_round_trip_witness :
    ((explode_panels [samplePanelA, samplePanelB] (5 : ℚ)).get
        ⟨0, by decide⟩).position = ⟨0, 0, -5⟩ := by
  have h := (explode_offset_and_round_trip [samplePanelA, samplePanelB]
    (5 : ℚ)).1 0 (by decide) (by decide)
  refine h.trans ?_
  norm_num [samplePanelA, Point3D.translate, Point3D.mk.injEq]

/-- C7: each derived exploded panel differs from its source panel only in
its position: its name, width, depth, thickness, hole list and material are
unchanged, and even within the position only the z coordinate changes.  The
embedding is a pure function, matching the source, which builds fresh
`Panel` objects and only reads the input list. -/
theorem explode_changes_only_position (panels : List (Panel α)) (D : α) :
    ((explode_panels panels D).map
        (fun q => (q.name, q.width, q.depth, q.thickness, q.holes, q.material)) =
      panels.map
        (fun q => (q.name, q.width, q.depth, q.thickness, q.holes, q.material))) ∧
    ((explode_panels panels D).map (fun q => (q.position.x, q.position.y)) =
      panels.map (fun q => (q.position.x, q.position.y))) :=
  explode_go_fields ..

/-- C2 (counterexample): in the SVG exploded view of a concrete two-panel
assembly, the single assembly line joins corner 6 of the first panel to
corner 4 of the second, and neither endpoint is the centroid (mean of the
8 corners) of either panel — so the drawn lines do not join centroids and
the pairs come from list adjacency, contradicting the claim. -/
theorem exploded_arrows_join_corners_not_centroids :
    assembly_arrow_endpoints
        (explode_panels [samplePanelA, samplePanelB] (0 : ℚ)) =
      [(⟨2, 2, 2⟩, ⟨10, 0, 2⟩)] ∧
    (explode_panels [samplePanelA, samplePanelB] (0 : ℚ)).map
        (fun q => meanPoint q.get_corners) = [⟨1, 1, 1⟩, ⟨11, 1, 1⟩] ∧
    ((⟨2, 2, 2⟩ : Point3D ℚ) ≠ ⟨1, 1, 1⟩ ∧
     (⟨2, 2, 2⟩ : Point3D ℚ) ≠ ⟨11, 1, 1⟩ ∧
     (⟨10, 0, 2⟩ : Point3D ℚ) ≠ ⟨1, 1, 1⟩ ∧
     (⟨10, 0, 2⟩ : Point3D ℚ) ≠ ⟨11, 1, 1⟩) := by
  norm_num [explode_panels, explode_go, samplePanelA, samplePanelB,
    assembly_arrow_endpoints, Panel.get_corners, meanPoint,
    Point3D.translate, Point3D.mk.injEq]

/-- C2 (amended): in the 3D-viewer path the connection lines do join the
centroid (mean of the 8 box corners, i.e. the box center) of panel 0 to the
centroids of panels 1 and 2, via the explicit per-concept index pairs
`[(0,1), (0,2)]` emitted only for assemblies of exactly 3 panels; in the
SVG exploded view, however, the assembly lines join corner 6 of panel `i`
to corner 4 of panel `i + 1` for each consecutive pair — simple list
adjacency, not centroids. -/
theorem connection_lines_amended :
    (∀ (x1 y1 z1 w1 d1 t1 x2 y2 z2 w2 d2 t2 x3 y3 z3 w3 d3 t3 : α)
        (c1 c2 c3 : String),
      viewer_connection_lines
          [create_box_mesh x1 y1 z1 w1 d1 t1 c1,
           create_box_mesh x2 y2 z2 w2 d2 t2 c2,
           create_box_mesh x3 y3 z3 w3 d3 t3 c3] =
        [(⟨x1 + w1 / 2, y1 + d1 / 2, z1 + t1 / 2⟩,
          ⟨x2 + w2 / 2, y2 + d2 / 2, z2 + t2 / 2⟩),
         (⟨x1 + w1 / 2, y1 + d1 / 2, z1 + t1 / 2⟩,
          ⟨x3 + w3 / 2, y3 + d3 / 2, z3 + t3 / 2⟩)]) ∧
    (∀ panels : List (Panel α),
      assembly_arrow_endpoints panels =
        (panels.zip panels.tail).map
          (fun pq =>
            ((pq.1.get_corners).get ⟨6, by simp [Panel.get_corners]⟩,
             (pq.2.get_corners).get ⟨4, by simp [Panel.get_corners]⟩))) := by
  constructor
  · intro x1 y1 z1 w1 d1 t1 x2 y2 z2 w2 d2 t2 x3 y3 z3 w3 d3 t3 c1 c2 c3
    simp [viewer_connection_lines, meanPoint_create_box_mesh]
  · intro panels
    induction panels with
    | nil => rfl
    | cons p rest ih =>
      cases rest with
      | nil => rfl
      | cons q rest2 =>
        simp [assembly_arrow_endpoints, List.zip_cons_cons, ih]

/-- C9: the global bounding box of the orthographic views equals the
elementwise min/max over the corner coordinates of all panels — whenever a
bound is produced it is itself one of the corner coordinates and a
lower/upper bound of all of them (stated for all six bounds) — and for the
concrete two-panel assembly spanning `(0,0,0)`-`(10,5,2)` and
`(20,0,0)`-`(30,5,2)` the bounding-box X range is `[0, 30]`.  In the
source the six values are computed once (lines 262-267) and the same
values are referenced by the top, front and side view blocks. -/
theorem ortho_bbox_minmax :
    (∀ (β : Type) [_inst : LinearOrderedField β] (panels : List (Panel β))
        (m : β),
      bbox_min_x panels = some m →
        m ∈ (allCorners panels).map Point3D.x ∧
        ∀ a ∈ (allCorners panels).map Point3D.x, m ≤ a) ∧
    (∀ (β : Type) [_inst : LinearOrderedField β] (panels : List (Panel β))
        (M : β),
      bbox_max_x panels = some M →
        M ∈ (allCorners panels).map Point3D.x ∧
        ∀ a ∈ (allCorners panels).map Point3D.x, a ≤ M) ∧
    (∀ (β : Type) [_inst : LinearOrderedField β] (panels : List (Panel β))
        (m : β),
      bbox_min_y panels = some m →
        m ∈ (allCorners panels).map Point3D.y ∧
        ∀ a ∈ (allCorners panels).map Point3D.y, m ≤ a) ∧
    (∀ (β : Type) [_inst : LinearOrderedField β] (panels : List (Panel β))
        (M : β),
      bbox_max_y panels = some M →
        M ∈ (allCorners panels).map Point3D.y ∧
        ∀ a ∈ (allCorners panels).map Point3D.y, a ≤ M) ∧
    (∀ (β : Type) [_inst : LinearOrderedField β] (panels : List (Panel β))
        (m : β),
      bbox_min_z panels = some m →
        m ∈ (allCorners panels).map Point3D.z ∧
        ∀ a ∈ (allCorners panels).map Point3D.z, m ≤ a) ∧
    (∀ (β : Type) [_inst : LinearOrderedField β] (panels : List (Panel β))
        (M : β),
      bbox_max_z panels = some M →
        M ∈ (allCorners panels).map Point3D.z ∧
        ∀ a ∈ (allCorners panels).map Point3D.z, a ≤ M) ∧
    bbox_min_x [bboxPanelA, bboxPanelB] = some (0 : ℚ) ∧
    bbox_max_x [bboxPanelA, bboxPanelB] = some (30 : ℚ) := by
  refine ⟨?_, ?_, ?_, ?_, ?_, ?_,
    by norm_num [bbox_min_x, allCorners, bboxPanelA, bboxPanelB,
      Panel.get_corners, List.min?_cons', List.foldl, min_def],
    by norm_num [bbox_max_x, allCorners, bboxPanelA, bboxPanelB,
      Panel.get_corners, List.max?_cons', List.foldl, max_def]⟩
  · intro β _inst panels m h
    exact list_min?_spec h
  · intro β _inst panels M h
    exact list_max?_spec h
  · intro β _inst panels m h
    exact list_min?_spec h
  · intro β _inst panels M h
    exact list_max?_spec h
  · intro β _inst panels m h
    exact list_min?_spec h
  · intro β _inst panels M h
    exact list_max?_spec h

/-- Witness for C9: the characterization applied to the concrete assembly,
at the bound `0` that the min over all corner x coordinates produces. -/
theorem ortho_bbox_minmax_witness :
    (0 : ℚ) ∈ (allCorners [bboxPanelA, bboxPanelB]).map Point3D.x ∧
    ∀ a ∈ (allCorners [bboxPanelA, bboxPanelB]).map Point3D.x, (0 : ℚ) ≤ a :=
  ortho_bbox_minmax.1 ℚ [bboxPanelA, bboxPanelB] 0
    (by norm_num [bbox_min_x, allCorners, bboxPanelA, bboxPanelB,
      Panel.get_corners, List.min?_cons', List.foldl, min_def])
